import Mathlib

/-!
Shallow embedding of the geometric/numeric pipeline of `src/Pages/MapView.tsx`
(gpx-viewer): great-circle distance and bearing, elevation color mapping,
segment rendering, direction-marker placement, waypoint annotation, viewport
fitting, and the file-load handler with its overlay-tracking state.

Numbers are modelled by the real numbers `ℝ` (the JavaScript source computes in
IEEE doubles; the idealisation to `ℝ` is the standard one for this kind of
trigonometric code). External collaborators (the GPX parser, the Google Maps
widget) are out of scope of the source per the specification and are modelled
by their interfaces only.
-/

open Real

/-- `GPXPoint` from MapView.tsx: latitude, longitude (degrees) and an optional
elevation (`ele`). -/
structure GPXPoint where
  lat : ℝ
  lon : ℝ
  ele : Option ℝ

/-- `GPXTrack` from MapView.tsx: an ordered list of points. -/
structure GPXTrack where
  points : List GPXPoint

/-- `GPXWaypoint` from MapView.tsx: position plus optional name, description
and elevation. -/
structure GPXWaypoint where
  lat : ℝ
  lon : ℝ
  name : Option String
  desc : Option String
  ele : Option ℝ

/-- Modelled from the spec: JavaScript's `Math.atan2` builtin (an external
language primitive, not repository code) — the standard two-argument
arctangent, defined by cases on the signs of the arguments. -/
noncomputable def atan2 (y x : ℝ) : ℝ :=
  if 0 < x then Real.arctan (y / x)
  else if x < 0 ∧ 0 ≤ y then Real.arctan (y / x) + π
  else if x < 0 ∧ y < 0 then Real.arctan (y / x) - π
  else if x = 0 ∧ 0 < y then π / 2
  else if x = 0 ∧ y < 0 then -(π / 2)
  else 0

/-- The haversine intermediate `a` of `calculateDistance` (MapView.tsx lines
89-94): `sin(dLat/2)^2 + cos(lat1)*cos(lat2)*sin(dLon/2)^2` with latitudes
converted to radians. -/
noncomputable def haversineTerm (p1 p2 : GPXPoint) : ℝ :=
  Real.sin ((p2.lat - p1.lat) * π / 180 / 2) * Real.sin ((p2.lat - p1.lat) * π / 180 / 2) +
    Real.cos (p1.lat * π / 180) * Real.cos (p2.lat * π / 180) *
      Real.sin ((p2.lon - p1.lon) * π / 180 / 2) * Real.sin ((p2.lon - p1.lon) * π / 180 / 2)

/-- `calculateDistance` (MapView.tsx lines 87-97): haversine great-circle
distance in kilometres with Earth radius `R = 6371`;
`c = 2 * atan2(sqrt a, sqrt (1 - a))`, result `R * c`. -/
noncomputable def calculateDistance (p1 p2 : GPXPoint) : ℝ :=
  6371 * (2 * atan2 (Real.sqrt (haversineTerm p1 p2)) (Real.sqrt (1 - haversineTerm p1 p2)))

/-- JavaScript number-to-integer truncation (toward zero), used by the `%`
operator on numbers. -/
noncomputable def jsTrunc (q : ℝ) : ℝ :=
  if 0 ≤ q then (⌊q⌋ : ℝ) else (⌈q⌉ : ℝ)

/-- JavaScript's `%` remainder on numbers: `a - b * trunc (a / b)`. -/
noncomputable def jsMod (a b : ℝ) : ℝ :=
  a - b * jsTrunc (a / b)

/-- `calculateBearing` (MapView.tsx lines 99-107): initial compass bearing
from `p1` to `p2`, mapped into `[0, 360)` via `(bearing + 360) % 360`. -/
noncomputable def calculateBearing (p1 p2 : GPXPoint) : ℝ :=
  let dLon := (p2.lon - p1.lon) * π / 180
  let lat1 := p1.lat * π / 180
  let lat2 := p2.lat * π / 180
  let y := Real.sin dLon * Real.cos lat2
  let x := Real.cos lat1 * Real.sin lat2 - Real.sin lat1 * Real.cos lat2 * Real.cos dLon
  jsMod (atan2 y x * 180 / π + 360) 360

/-- An RGB color triple, the result of `getColorForElevation` (the source
formats it as a CSS `rgb(r, g, b)` string; the string formatting is purely
presentational). -/
structure RGB where
  r : ℤ
  g : ℤ
  b : ℤ
deriving DecidableEq

/-- The fixed low-elevation color of `getColorForElevation`
(MapView.tsx line 70). -/
def lowColor : RGB := ⟨128, 140, 255⟩

/-- The fixed high-elevation color of `getColorForElevation`
(MapView.tsx line 71). -/
def highColor : RGB := ⟨255, 125, 113⟩

/-- The `ratio` local of `getColorForElevation` (MapView.tsx line 65):
`(elevation - min) / (max - min || 1)`; the JavaScript `|| 1` replaces a zero
divisor by 1. -/
noncomputable def elevationRatioOf (elevation minElevation maxElevation : ℝ) : ℝ :=
  (elevation - minElevation) /
    (if maxElevation - minElevation = 0 then 1 else maxElevation - minElevation)

/-- The `normalizedRatio` local of `getColorForElevation` (MapView.tsx line
66): the ratio clamped to `[0, 1]` by `Math.max(0, Math.min(1, ratio))`. -/
noncomputable def normalizedRatioOf (elevation minElevation maxElevation : ℝ) : ℝ :=
  max 0 (min 1 (elevationRatioOf elevation minElevation maxElevation))

/-- `getColorForElevation` (MapView.tsx lines 64-78): per-channel linear
interpolation between `lowColor` and `highColor` by the clamped ratio, each
channel rounded with `Math.round` (round half toward positive infinity, which
is Mathlib's `round`). -/
noncomputable def getColorForElevation (elevation minElevation maxElevation : ℝ) : RGB :=
  ⟨round ((lowColor.r : ℝ) +
      ((highColor.r : ℝ) - (lowColor.r : ℝ)) * normalizedRatioOf elevation minElevation maxElevation),
    round ((lowColor.g : ℝ) +
      ((highColor.g : ℝ) - (lowColor.g : ℝ)) * normalizedRatioOf elevation minElevation maxElevation),
    round ((lowColor.b : ℝ) +
      ((highColor.b : ℝ) - (lowColor.b : ℝ)) * normalizedRatioOf elevation minElevation maxElevation)⟩

/-- A direction marker as emitted by `renderDirectionArrows` (MapView.tsx
lines 157-170): placed at the current segment's start point, rotated by the
segment bearing, and titled with the accumulated distance (the `toFixed(1)`
title text is presentational; the field stores the number). -/
structure DirectionMarker where
  lat : ℝ
  lon : ℝ
  bearingDegrees : ℝ
  cumulativeDistanceKm : ℝ

/-- The per-track loop body of `renderDirectionArrows` (MapView.tsx lines
144-175): walk consecutive point pairs, accumulate `calculateDistance`, and
after each segment emit a marker at the segment's start whenever
`accumulatedDistance - lastArrowDistance >= 3`, then reset
`lastArrowDistance` to the accumulated distance. -/
noncomputable def arrowLoop : List GPXPoint → ℝ → ℝ → List DirectionMarker
  | p :: q :: rest, accumulatedDistance, lastArrowDistance =>
    let acc := accumulatedDistance + calculateDistance p q
    if 3 ≤ acc - lastArrowDistance then
      ⟨p.lat, p.lon, calculateBearing p q, acc⟩ :: arrowLoop (q :: rest) acc acc
    else
      arrowLoop (q :: rest) acc lastArrowDistance
  | _, _, _ => []

/-- The direction markers emitted for one track: the loop started with
`accumulatedDistance = 0` and `lastArrowDistance = 0`. -/
noncomputable def directionArrowsOfTrack (points : List GPXPoint) : List DirectionMarker :=
  arrowLoop points 0 0

/-- `renderDirectionArrows` (MapView.tsx lines 142-177): markers of every
track in order, accumulators reset per track. -/
noncomputable def renderDirectionArrows (tracks : List GPXTrack) : List DirectionMarker :=
  tracks.foldl (fun acc t => acc ++ directionArrowsOfTrack t.points) []

/-- The total length of a track: the sum of `calculateDistance` over
consecutive point pairs (the final value of `accumulatedDistance`). -/
noncomputable def totalLength : List GPXPoint → ℝ
  | p :: q :: rest => calculateDistance p q + totalLength (q :: rest)
  | _ => 0

/-- The accumulated distance after processing the first `n` segments of a
track (so `accDist ps (i+1)` is `accumulatedDistance` right after the segment
starting at index `i`). -/
noncomputable def accDist : List GPXPoint → ℕ → ℝ
  | _, 0 => 0
  | p :: q :: rest, n + 1 => calculateDistance p q + accDist (q :: rest) n
  | _, _ + 1 => 0

/-- A two-point track along the equator: longitudes 0 and 180 degrees, half
the circumference apart. -/
def equatorTrack : List GPXPoint := [⟨0, 0, none⟩, ⟨0, 180, none⟩]

/-- The single direction marker the placer emits on `equatorTrack`. -/
noncomputable def equatorMarker : DirectionMarker :=
  ⟨0, 0, calculateBearing ⟨0, 0, none⟩ ⟨0, 180, none⟩, 6371 * π⟩

/-- A colored polyline segment as drawn by `renderTrackSegments` (MapView.tsx
lines 127-137); the fixed stroke weight 4 and opacity 0.9 are style constants
and carry no correctness content. -/
structure ColoredSegment where
  startLat : ℝ
  startLon : ℝ
  endLat : ℝ
  endLon : ℝ
  color : RGB

/-- The per-track body of `renderTrackSegments` (MapView.tsx lines 120-139):
one segment per adjacent point pair, colored by the pair's average elevation
(missing elevation read as 0). -/
noncomputable def segmentsOfTrack (points : List GPXPoint) (minElevation maxElevation : ℝ) :
    List ColoredSegment :=
  (points.zip points.tail).map fun pq =>
    ⟨pq.1.lat, pq.1.lon, pq.2.lat, pq.2.lon,
      getColorForElevation ((pq.1.ele.getD 0 + pq.2.ele.getD 0) / 2) minElevation maxElevation⟩

/-- `renderTrackSegments` (MapView.tsx lines 119-140): segments of all tracks
in order, pushed onto the polyline collection. -/
noncomputable def renderTrackSegments (tracks : List GPXTrack) (minElevation maxElevation : ℝ) :
    List ColoredSegment :=
  tracks.foldl (fun acc t => acc ++ segmentsOfTrack t.points minElevation maxElevation) []

/-- JavaScript truthiness of an optional string: `undefined` and the empty
string are falsy, every other string is truthy. -/
def truthyString : Option String → Bool
  | some s => s != ""
  | none => false

/-- The specification-side notion "the optional string is present and
nonempty", used to state the popup condition. -/
def presentNonempty : Option String → Prop
  | some s => s ≠ ""
  | none => False

/-- The popup payload built by `renderWaypoints` (MapView.tsx lines 190-197):
name as heading when truthy, description as body when truthy, elevation when
not null (the source renders it suffixed "m"; the HTML formatting is
presentational). -/
structure PopupContent where
  heading : Option String
  body : Option String
  elevationMeters : Option ℝ

/-- A waypoint marker as emitted by `renderWaypoints` (MapView.tsx lines
181-199): position, marker title, and the optional click popup. -/
structure WaypointMarker where
  lat : ℝ
  lon : ℝ
  title : Option String
  popup : Option PopupContent

/-- The per-waypoint body of `renderWaypoints` (MapView.tsx lines 180-200):
always one marker; an InfoWindow is attached exactly when
`waypoint.name || waypoint.desc || waypoint.ele != null` is truthy. -/
def mkWaypointMarker (w : GPXWaypoint) : WaypointMarker :=
  { lat := w.lat
    lon := w.lon
    title := w.name
    popup :=
      if truthyString w.name || truthyString w.desc || w.ele.isSome then
        some
          { heading := if truthyString w.name then w.name else none
            body := if truthyString w.desc then w.desc else none
            elevationMeters := w.ele }
      else none }

/-- `renderWaypoints` (MapView.tsx lines 179-201): markers pushed onto the
marker collection, one per waypoint in order. -/
def renderWaypoints (waypoints : List GPXWaypoint) : List WaypointMarker :=
  waypoints.foldl (fun acc w => acc ++ [mkWaypointMarker w]) []

/-- Modelled from the spec: `google.maps.LatLngBounds` is part of the external
map widget (spec section 6); per sections 3 and 4.7 a bounding region is the
minimal axis-aligned latitude/longitude rectangle, grown monotonically by
`extend`. A bounds object that has not been extended yet is `none`. -/
structure LatLngBounds where
  south : ℝ
  north : ℝ
  west : ℝ
  east : ℝ

/-- Modelled from the spec: `LatLngBounds.extend` — the first point becomes a
zero-area rectangle, later points grow each side monotonically. -/
noncomputable def extendBounds : Option LatLngBounds → ℝ → ℝ → Option LatLngBounds
  | none, la, lo => some ⟨la, la, lo, lo⟩
  | some r, la, lo => some ⟨min r.south la, max r.north la, min r.west lo, max r.east lo⟩

/-- All points of all tracks, in order (`allPoints` of
`calculateElevationRange`, MapView.tsx line 110). -/
def allPointsOf (tracks : List GPXTrack) : List GPXPoint :=
  tracks.flatMap GPXTrack.points

/-- `fitMapBounds` (MapView.tsx lines 203-208): extend an empty bounds object
over every track point, then every waypoint, and request a viewport fit with
the result. The source performs this unconditionally — there is no empty-set
guard. The returned value is the region passed to `map.fitBounds`. -/
noncomputable def fitMapBounds (allPoints : List GPXPoint) (waypoints : List GPXWaypoint) :
    Option LatLngBounds :=
  waypoints.foldl (fun b w => extendBounds b w.lat w.lon)
    (allPoints.foldl (fun b p => extendBounds b p.lat p.lon) none)

/-- The bounds `b` contain the coordinate `(la, lo)`. -/
def boundsContain (b : Option LatLngBounds) (la lo : ℝ) : Prop :=
  ∃ r : LatLngBounds, b = some r ∧ r.south ≤ la ∧ la ≤ r.north ∧ r.west ≤ lo ∧ lo ≤ r.east

/-- An overlay tracked by the component: the source pushes both direction
arrows and waypoint markers onto `markersRef` (MapView.tsx lines 172 and
187). -/
inductive MapOverlayMarker where
  | arrow (m : DirectionMarker)
  | waypoint (m : WaypointMarker)

/-- The overlay-tracking state of the component: `polylinesRef` and
`markersRef` (MapView.tsx lines 33-34). -/
structure MapState where
  polylines : List ColoredSegment
  markers : List MapOverlayMarker

/-- `clearMapOverlays` (MapView.tsx lines 80-85): every tracked overlay is
removed from the map and both collections are reset to empty. -/
def clearMapOverlays (_ : MapState) : MapState :=
  ⟨[], []⟩

/-- The successful-parse path of `handleFile` (MapView.tsx lines 223-231):
compute the elevation range over all points (`calculateElevationRange`,
lines 109-117), render segments, direction arrows and waypoints onto the
just-cleared collections, and fit the map bounds. JavaScript's
`Math.min(...[])` on an empty spread yields `+Infinity`, which `ℝ` cannot
represent; the empty case is given the default 0 here, a value that is
provably never consulted because a document with no points produces no
segments. -/
noncomputable def renderDocument (tracks : List GPXTrack) (waypoints : List GPXWaypoint) :
    MapState × Option LatLngBounds :=
  let allPoints := allPointsOf tracks
  let elevations := allPoints.map fun p => p.ele.getD 0
  let minElevation := elevations.min?.getD 0
  let maxElevation := elevations.max?.getD 0
  (⟨renderTrackSegments tracks minElevation maxElevation,
      (renderDirectionArrows tracks).map MapOverlayMarker.arrow
        ++ (renderWaypoints waypoints).map MapOverlayMarker.waypoint⟩,
    fitMapBounds allPoints waypoints)

/-- Modelled from the spec: the file source and GPX parser are external
collaborators (spec section 6); one load event either has no file selected,
fails (the file read rejecting or `parser.parse` throwing — both land in the
same catch block), or yields the parsed document's tracks and waypoints. -/
inductive LoadEvent where
  | noFile
  | failure (msg : String)
  | parsed (tracks : List GPXTrack) (waypoints : List GPXWaypoint)

/-- `handleFile` (MapView.tsx lines 210-235) as a transition on the overlay
state: if the map is not ready, return unchanged; otherwise clear all
overlays first, then stop on an empty selection, log-and-stop on a failure,
or render the parsed document. Result: new overlay state, the viewport-fit
request if one was issued, and the console-error log lines. -/
noncomputable def handleFile (st : MapState) (mapReady : Bool) (ev : LoadEvent) :
    MapState × Option (Option LatLngBounds) × List String :=
  if mapReady then
    let cleared := clearMapOverlays st
    match ev with
    | LoadEvent.noFile => (cleared, none, [])
    | LoadEvent.failure msg => (cleared, none, ["Error parsing GPX file: " ++ msg])
    | LoadEvent.parsed tracks waypoints =>
      let r := renderDocument tracks waypoints
      (r.1, some r.2, [])
  else (st, none, [])

/-- A concrete waypoint with all three optional fields populated. -/
def summitWaypoint : GPXWaypoint := ⟨36, 128, some "Summit", some "Peak shelter", some 1915⟩

/-- The popup `renderWaypoints` attaches to `summitWaypoint`. -/
def summitPopup : PopupContent := ⟨some "Summit", some "Peak shelter", some 1915⟩

/- ### helper lemmas about atan2 and the distance -/

lemma atan2_zero_one : atan2 0 1 = 0 := by
  unfold atan2
  rw [if_pos one_pos, zero_div, Real.arctan_zero]

lemma atan2_one_zero : atan2 1 0 = π / 2 := by
  unfold atan2
  have h1 : ¬ (0:ℝ) < 0 := lt_irrefl 0
  have h2 : ¬ ((0:ℝ) < 0 ∧ (0:ℝ) ≤ 1) := fun h => h1 h.1
  have h3 : ¬ ((0:ℝ) < 0 ∧ (1:ℝ) < 0) := fun h => h1 h.1
  rw [if_neg h1, if_neg h2, if_neg h3, if_pos ⟨rfl, one_pos⟩]

lemma atan2_nonneg {y : ℝ} (x : ℝ) (hy : 0 ≤ y) : 0 ≤ atan2 y x := by
  unfold atan2
  split_ifs with h1 h2 h3 h4 h5
  · have : (0:ℝ) = Real.arctan 0 := Real.arctan_zero.symm
    rw [this]
    exact Real.arctan_strictMono.monotone (div_nonneg hy h1.le)
  · have := Real.neg_pi_div_two_lt_arctan (y / x)
    have hpi := Real.pi_pos
    linarith
  · exact absurd h3.2 (not_lt.mpr hy)
  · have hpi := Real.pi_pos
    linarith
  · exact absurd h5.2 (not_lt.mpr hy)
  · exact le_refl 0

lemma haversineTerm_symm (p1 p2 : GPXPoint) : haversineTerm p1 p2 = haversineTerm p2 p1 := by
  unfold haversineTerm
  have e1 : (p1.lat - p2.lat) * π / 180 / 2 = -((p2.lat - p1.lat) * π / 180 / 2) := by ring
  have e2 : (p1.lon - p2.lon) * π / 180 / 2 = -((p2.lon - p1.lon) * π / 180 / 2) := by ring
  rw [e1, e2]
  simp only [Real.sin_neg]
  ring

lemma calculateDistance_zero_of_haversineTerm_zero {p1 p2 : GPXPoint}
    (h : haversineTerm p1 p2 = 0) : calculateDistance p1 p2 = 0 := by
  unfold calculateDistance
  rw [h, sub_zero, Real.sqrt_zero, Real.sqrt_one, atan2_zero_one]
  ring

lemma calculateDistance_nonneg (p1 p2 : GPXPoint) : 0 ≤ calculateDistance p1 p2 := by
  unfold calculateDistance
  have h1 : (0:ℝ) ≤ 6371 := by norm_num
  have h2 : 0 ≤ atan2 (Real.sqrt (haversineTerm p1 p2)) (Real.sqrt (1 - haversineTerm p1 p2)) :=
    atan2_nonneg _ (Real.sqrt_nonneg _)
  nlinarith

/-- Claim C5 (corrected): `calculateDistance` is symmetric, is zero on equal
points, and is zero whenever latitudes and longitudes agree; the converse
("zero only if coordinates agree") is refuted by `C5_counterexample`. -/
theorem C5_amended :
    (∀ p1 p2 : GPXPoint, calculateDistance p1 p2 = calculateDistance p2 p1)
    ∧ (∀ p : GPXPoint, calculateDistance p p = 0)
    ∧ (∀ p1 p2 : GPXPoint, p1.lat = p2.lat → p1.lon = p2.lon → calculateDistance p1 p2 = 0) := by
  have hzero : ∀ p1 p2 : GPXPoint, p1.lat = p2.lat → p1.lon = p2.lon →
      calculateDistance p1 p2 = 0 := by
    intro p1 p2 h1 h2
    apply calculateDistance_zero_of_haversineTerm_zero
    unfold haversineTerm
    rw [h1, h2, sub_self, sub_self, zero_mul, zero_div, zero_div, Real.sin_zero]
    ring
  refine ⟨?_, fun p => hzero p p rfl rfl, hzero⟩
  intro p1 p2
  unfold calculateDistance
  rw [haversineTerm_symm]

/-- Witness for C5_amended: the hypotheses of the third conjunct discharged at
a concrete point. -/
theorem C5_amended_witness : calculateDistance ⟨37, 127, none⟩ ⟨37, 127, none⟩ = 0 :=
  C5_amended.2.2 ⟨37, 127, none⟩ ⟨37, 127, none⟩ rfl rfl

/-- Claim C5 counterexample: two points with equal latitude 90 and different
longitudes are at `calculateDistance` zero, refuting "distance is zero only if
the points agree in latitude and longitude". -/
theorem C5_counterexample :
    calculateDistance ⟨90, 0, none⟩ ⟨90, 90, none⟩ = 0
    ∧ (GPXPoint.mk 90 0 none).lon ≠ (GPXPoint.mk 90 90 none).lon := by
  constructor
  · apply calculateDistance_zero_of_haversineTerm_zero
    unfold haversineTerm
    have hc : Real.cos ((90:ℝ) * π / 180) = 0 := by
      rw [show (90:ℝ) * π / 180 = π / 2 by ring, Real.cos_pi_div_two]
    show Real.sin (((90:ℝ) - 90) * π / 180 / 2) * Real.sin (((90:ℝ) - 90) * π / 180 / 2) +
        Real.cos ((90:ℝ) * π / 180) * Real.cos ((90:ℝ) * π / 180) *
          Real.sin (((90:ℝ) - 0) * π / 180 / 2) * Real.sin (((90:ℝ) - 0) * π / 180 / 2) = 0
    rw [hc]
    rw [show ((90:ℝ) - 90) * π / 180 / 2 = 0 by ring, Real.sin_zero]
    ring
  · show (0:ℝ) ≠ 90
    norm_num

/- ### helper lemmas about the elevation color mapper -/

lemma normalizedRatioOf_eq_zero {e mn mx : ℝ} (h : elevationRatioOf e mn mx ≤ 0) :
    normalizedRatioOf e mn mx = 0 := by
  unfold normalizedRatioOf
  exact max_eq_left (le_trans (min_le_right _ _) h)

lemma normalizedRatioOf_eq_one {e mn mx : ℝ} (h : 1 ≤ elevationRatioOf e mn mx) :
    normalizedRatioOf e mn mx = 1 := by
  unfold normalizedRatioOf
  rw [min_eq_left h]
  exact max_eq_right zero_le_one

lemma getColorForElevation_eq_low {e mn mx : ℝ} (h : normalizedRatioOf e mn mx = 0) :
    getColorForElevation e mn mx = lowColor := by
  unfold getColorForElevation
  rw [h]
  simp only [mul_zero, add_zero, round_intCast]

lemma getColorForElevation_eq_high {e mn mx : ℝ} (h : normalizedRatioOf e mn mx = 1) :
    getColorForElevation e mn mx = highColor := by
  unfold getColorForElevation
  rw [h]
  have hch : ∀ a b : ℤ, (a : ℝ) + ((b : ℝ) - (a : ℝ)) * 1 = (b : ℝ) := by
    intro a b; ring
  rw [hch, hch, hch]
  simp only [round_intCast]

lemma elevationRatioOf_flat (e mn : ℝ) : elevationRatioOf e mn mn = e - mn := by
  unfold elevationRatioOf
  rw [sub_self, if_pos rfl, div_one]

/-- Claim C2 (corrected): when `min = max` the divisor is replaced by 1, so the
ratio is `e - min` (then clamped), not 0; the low color is returned exactly
when `e ≤ min` — in particular for every point of a flat track, where
`e = min` — but not for every elevation `e` (see `C2_counterexample`). -/
theorem C2_amended : ∀ e mn : ℝ, e ≤ mn → getColorForElevation e mn mn = lowColor := by
  intro e mn h
  apply getColorForElevation_eq_low
  apply normalizedRatioOf_eq_zero
  rw [elevationRatioOf_flat]
  exact sub_nonpos.mpr h

/-- Witness for C2_amended at `e = min = max = 2`. -/
theorem C2_amended_witness : getColorForElevation 2 2 2 = lowColor :=
  C2_amended 2 2 le_rfl

/-- Claim C2 counterexample: with range `min = max = 2` and elevation 3 the
code returns the high color, not the low color, because the ratio is
`3 - 2 = 1` rather than the forced 0 the claim states. -/
theorem C2_counterexample :
    getColorForElevation 3 2 2 = highColor ∧ highColor ≠ lowColor := by
  constructor
  · apply getColorForElevation_eq_high
    apply normalizedRatioOf_eq_one
    rw [elevationRatioOf_flat]
    norm_num
  · decide

/-- Claim C3 (corrected): for ranges with `min ≤ max`, `e ≤ min` yields the
low color; the high-color half additionally needs `min < max`: when
`min = max`, an elevation `e = max` satisfies `e ≥ max` yet yields the low
color (see `C3_counterexample`, which also shows the low half fails when
`max < min`). -/
theorem C3_amended : ∀ e mn mx : ℝ, mn ≤ mx →
    ((e ≤ mn → getColorForElevation e mn mx = lowColor)
      ∧ (mn < mx → mx ≤ e → getColorForElevation e mn mx = highColor)) := by
  intro e mn mx hle
  constructor
  · intro he
    apply getColorForElevation_eq_low
    apply normalizedRatioOf_eq_zero
    rcases eq_or_lt_of_le hle with heq | hlt
    · rw [← heq, elevationRatioOf_flat]
      exact sub_nonpos.mpr he
    · unfold elevationRatioOf
      rw [if_neg (sub_ne_zero.mpr (ne_of_gt hlt))]
      exact div_nonpos_of_nonpos_of_nonneg (sub_nonpos.mpr he) (sub_pos.mpr hlt).le
  · intro hlt he
    apply getColorForElevation_eq_high
    apply normalizedRatioOf_eq_one
    unfold elevationRatioOf
    rw [if_neg (sub_ne_zero.mpr (ne_of_gt hlt))]
    rw [one_le_div (sub_pos.mpr hlt)]
    exact sub_le_sub_right he mn

/-- Witness for C3_amended: both halves discharged on the range `[0, 1]`. -/
theorem C3_amended_witness :
    getColorForElevation 0 0 1 = lowColor ∧ getColorForElevation 1 0 1 = highColor :=
  ⟨(C3_amended 0 0 1 zero_le_one).1 le_rfl,
    (C3_amended 1 0 1 zero_le_one).2 zero_lt_one le_rfl⟩

/-- Claim C3 counterexample: with `min = max = 0` the elevation 0 satisfies
`e >= max` yet the code returns the low color, not the high color; and with
the reversed range `min = 10, max = 0` the elevation 0 satisfies `e <= min`
yet the code returns the high color, not the low color. -/
theorem C3_counterexample :
    getColorForElevation 0 0 0 = lowColor ∧ lowColor ≠ highColor
    ∧ getColorForElevation 0 10 0 = highColor := by
  refine ⟨?_, by decide, ?_⟩
  · apply getColorForElevation_eq_low
    apply normalizedRatioOf_eq_zero
    rw [elevationRatioOf_flat]
    norm_num
  · apply getColorForElevation_eq_high
    apply normalizedRatioOf_eq_one
    unfold elevationRatioOf
    rw [if_neg (by norm_num : (0:ℝ) - 10 ≠ 0)]
    norm_num

/- ### helper lemmas about the direction-marker placer -/

lemma arrowLoop_nil (acc la : ℝ) : arrowLoop [] acc la = [] := rfl

lemma arrowLoop_single (p : GPXPoint) (acc la : ℝ) : arrowLoop [p] acc la = [] := rfl

lemma arrowLoop_cons (p q : GPXPoint) (rest : List GPXPoint) (acc la : ℝ) :
    arrowLoop (p :: q :: rest) acc la =
      if 3 ≤ acc + calculateDistance p q - la then
        ⟨p.lat, p.lon, calculateBearing p q, acc + calculateDistance p q⟩ ::
          arrowLoop (q :: rest) (acc + calculateDistance p q) (acc + calculateDistance p q)
      else arrowLoop (q :: rest) (acc + calculateDistance p q) la := rfl

lemma totalLength_nil : totalLength [] = 0 := rfl

lemma totalLength_single (p : GPXPoint) : totalLength [p] = 0 := rfl

lemma totalLength_cons (p q : GPXPoint) (rest : List GPXPoint) :
    totalLength (p :: q :: rest) = calculateDistance p q + totalLength (q :: rest) := rfl

lemma accDist_zero (ps : List GPXPoint) : accDist ps 0 = 0 := by
  cases ps with
  | nil => rfl
  | cons p tail => cases tail <;> rfl

lemma accDist_cons_succ (p q : GPXPoint) (rest : List GPXPoint) (n : ℕ) :
    accDist (p :: q :: rest) (n + 1) = calculateDistance p q + accDist (q :: rest) n := rfl

lemma arrowLoop_length_bound : ∀ (ps : List GPXPoint) (acc la : ℝ), la ≤ acc →
    3 * ((arrowLoop ps acc la).length : ℝ) + la ≤ acc + totalLength ps := by
  intro ps
  induction ps with
  | nil =>
    intro acc la h
    rw [arrowLoop_nil, totalLength_nil]
    simp only [List.length_nil, Nat.cast_zero, mul_zero, zero_add, add_zero]
    linarith
  | cons p tail ih =>
    intro acc la h
    cases tail with
    | nil =>
      rw [arrowLoop_single, totalLength_single]
      simp only [List.length_nil, Nat.cast_zero, mul_zero, zero_add, add_zero]
      linarith
    | cons q rest =>
      rw [arrowLoop_cons, totalLength_cons]
      by_cases hc : 3 ≤ acc + calculateDistance p q - la
      · rw [if_pos hc]
        have ihh := ih (acc + calculateDistance p q) (acc + calculateDistance p q) le_rfl
        simp only [List.length_cons] at *
        push_cast at *
        linarith
      · rw [if_neg hc]
        have hd := calculateDistance_nonneg p q
        have ihh := ih (acc + calculateDistance p q) la (by linarith)
        linarith

lemma arrowLoop_length_le : ∀ (ps : List GPXPoint) (acc la : ℝ),
    (arrowLoop ps acc la).length ≤ ps.length - 1 := by
  intro ps
  induction ps with
  | nil => intro acc la; rw [arrowLoop_nil]; simp
  | cons p tail ih =>
    intro acc la
    cases tail with
    | nil => rw [arrowLoop_single]; simp
    | cons q rest =>
      rw [arrowLoop_cons]
      by_cases hc : 3 ≤ acc + calculateDistance p q - la
      · rw [if_pos hc]
        have := ih (acc + calculateDistance p q) (acc + calculateDistance p q)
        simp only [List.length_cons] at *
        omega
      · rw [if_neg hc]
        have := ih (acc + calculateDistance p q) la
        simp only [List.length_cons] at *
        omega

lemma arrowLoop_mem_cum : ∀ (ps : List GPXPoint) (acc la : ℝ),
    ∀ m ∈ arrowLoop ps acc la, la + 3 ≤ m.cumulativeDistanceKm := by
  intro ps
  induction ps with
  | nil => intro acc la m hm; rw [arrowLoop_nil] at hm; simp at hm
  | cons p tail ih =>
    intro acc la m hm
    cases tail with
    | nil => rw [arrowLoop_single] at hm; simp at hm
    | cons q rest =>
      rw [arrowLoop_cons] at hm
      by_cases hc : 3 ≤ acc + calculateDistance p q - la
      · rw [if_pos hc] at hm
        rcases List.mem_cons.mp hm with h | h
        · subst h
          show la + 3 ≤ acc + calculateDistance p q
          linarith
        · have := ih (acc + calculateDistance p q) (acc + calculateDistance p q) m h
          linarith
      · rw [if_neg hc] at hm
        exact ih (acc + calculateDistance p q) la m hm

lemma arrowLoop_chain : ∀ (ps : List GPXPoint) (acc la : ℝ),
    List.Chain' (fun m1 m2 : DirectionMarker =>
      m1.cumulativeDistanceKm + 3 ≤ m2.cumulativeDistanceKm) (arrowLoop ps acc la) := by
  intro ps
  induction ps with
  | nil => intro acc la; rw [arrowLoop_nil]; exact List.chain'_nil
  | cons p tail ih =>
    intro acc la
    cases tail with
    | nil => rw [arrowLoop_single]; exact List.chain'_nil
    | cons q rest =>
      rw [arrowLoop_cons]
      by_cases hc : 3 ≤ acc + calculateDistance p q - la
      · rw [if_pos hc]
        apply List.chain'_cons'.mpr
        refine ⟨?_, ih _ _⟩
        intro b hb
        have hbmem : b ∈ arrowLoop (q :: rest)
            (acc + calculateDistance p q) (acc + calculateDistance p q) :=
          List.mem_of_mem_head? hb
        have hcum := arrowLoop_mem_cum _ _ _ b hbmem
        show acc + calculateDistance p q + 3 ≤ b.cumulativeDistanceKm
        linarith
      · rw [if_neg hc]
        exact ih _ _

lemma arrowLoop_mem_spec : ∀ (ps : List GPXPoint) (acc la : ℝ),
    ∀ m ∈ arrowLoop ps acc la, ∃ i : ℕ, ∃ p q : GPXPoint,
      ps[i]? = some p ∧ ps[i+1]? = some q ∧ m.lat = p.lat ∧ m.lon = p.lon
      ∧ m.bearingDegrees = calculateBearing p q
      ∧ m.cumulativeDistanceKm = acc + accDist ps (i+1) := by
  intro ps
  induction ps with
  | nil => intro acc la m hm; rw [arrowLoop_nil] at hm; simp at hm
  | cons p tail ih =>
    intro acc la m hm
    cases tail with
    | nil => rw [arrowLoop_single] at hm; simp at hm
    | cons q rest =>
      rw [arrowLoop_cons] at hm
      have hstep : ∀ la2 : ℝ,
          m ∈ arrowLoop (q :: rest) (acc + calculateDistance p q) la2 →
          ∃ i : ℕ, ∃ a b : GPXPoint,
            (p :: q :: rest)[i]? = some a ∧ (p :: q :: rest)[i+1]? = some b
            ∧ m.lat = a.lat ∧ m.lon = a.lon ∧ m.bearingDegrees = calculateBearing a b
            ∧ m.cumulativeDistanceKm = acc + accDist (p :: q :: rest) (i+1) := by
        intro la2 hmem
        obtain ⟨i, a, b, h1, h2, h3, h4, h5, h6⟩ :=
          ih (acc + calculateDistance p q) la2 m hmem
        refine ⟨i + 1, a, b, ?_, ?_, h3, h4, h5, ?_⟩
        · simpa using h1
        · simpa using h2
        · rw [h6, accDist_cons_succ]
          ring
      by_cases hc : 3 ≤ acc + calculateDistance p q - la
      · rw [if_pos hc] at hm
        rcases List.mem_cons.mp hm with h | h
        · subst h
          refine ⟨0, p, q, by simp, by simp, rfl, rfl, rfl, ?_⟩
          show acc + calculateDistance p q = acc + accDist (p :: q :: rest) 1
          rw [accDist_cons_succ, accDist_zero]
          ring
        · exact hstep _ h
      · rw [if_neg hc] at hm
        exact hstep _ hm

/-- Claim C1 (corrected): for every track, the direction-marker placer with
threshold 3 km emits at most `⌊L / 3⌋` markers (indeed `3 * count ≤ L`) and at
most one marker per segment-processing step (`count ≤ segments`); the
cumulative distances of consecutive markers differ by at least 3; and every
marker sits at its segment's start point, carries that segment's bearing, and
records the accumulated distance at emission. The claimed lower bound
"`⌊L / 3⌋` within ±1" is refuted by `C1_counterexample`: a single long segment
yields one marker regardless of its length. -/
theorem C1_amended : ∀ ps : List GPXPoint,
    3 * ((directionArrowsOfTrack ps).length : ℝ) ≤ totalLength ps
    ∧ ((directionArrowsOfTrack ps).length : ℤ) ≤ ⌊totalLength ps / 3⌋
    ∧ (directionArrowsOfTrack ps).length ≤ ps.length - 1
    ∧ List.Chain' (fun m1 m2 : DirectionMarker =>
        m1.cumulativeDistanceKm + 3 ≤ m2.cumulativeDistanceKm) (directionArrowsOfTrack ps)
    ∧ ∀ m ∈ directionArrowsOfTrack ps, ∃ i : ℕ, ∃ p q : GPXPoint,
        ps[i]? = some p ∧ ps[i+1]? = some q ∧ m.lat = p.lat ∧ m.lon = p.lon
        ∧ m.bearingDegrees = calculateBearing p q
        ∧ m.cumulativeDistanceKm = accDist ps (i+1) := by
  intro ps
  have hb := arrowLoop_length_bound ps 0 0 le_rfl
  have h1 : 3 * ((directionArrowsOfTrack ps).length : ℝ) ≤ totalLength ps := by
    unfold directionArrowsOfTrack
    linarith
  refine ⟨h1, ?_, arrowLoop_length_le ps 0 0, arrowLoop_chain ps 0 0, ?_⟩
  · apply Int.le_floor.mpr
    push_cast
    rw [le_div_iff₀ (by norm_num : (0:ℝ) < 3)]
    linarith
  · intro m hm
    obtain ⟨i, p, q, g1, g2, g3, g4, g5, g6⟩ := arrowLoop_mem_spec ps 0 0 m hm
    exact ⟨i, p, q, g1, g2, g3, g4, g5, by rw [g6, zero_add]⟩

lemma equator_haversineTerm :
    haversineTerm ⟨0, 0, none⟩ ⟨0, 180, none⟩ = 1 := by
  show Real.sin (((0:ℝ) - 0) * π / 180 / 2) * Real.sin (((0:ℝ) - 0) * π / 180 / 2) +
      Real.cos ((0:ℝ) * π / 180) * Real.cos ((0:ℝ) * π / 180) *
        Real.sin (((180:ℝ) - 0) * π / 180 / 2) * Real.sin (((180:ℝ) - 0) * π / 180 / 2) = 1
  rw [show ((0:ℝ) - 0) * π / 180 / 2 = 0 by ring,
    show (0:ℝ) * π / 180 = 0 by ring,
    show ((180:ℝ) - 0) * π / 180 / 2 = π / 2 by ring,
    Real.sin_zero, Real.cos_zero, Real.sin_pi_div_two]
  ring

lemma equator_dist : calculateDistance ⟨0, 0, none⟩ ⟨0, 180, none⟩ = 6371 * π := by
  unfold calculateDistance
  rw [equator_haversineTerm, sub_self, Real.sqrt_zero, Real.sqrt_one, atan2_one_zero]
  ring

lemma equator_arrows : directionArrowsOfTrack equatorTrack = [equatorMarker] := by
  unfold directionArrowsOfTrack equatorTrack
  rw [arrowLoop_cons, equator_dist,
    if_pos (by linarith [Real.pi_gt_three] : (3:ℝ) ≤ 0 + 6371 * π - 0),
    arrowLoop_single, zero_add]
  rfl

lemma equator_total : totalLength equatorTrack = 6371 * π := by
  unfold equatorTrack
  rw [totalLength_cons, totalLength_single, equator_dist, add_zero]

/-- Claim C1 counterexample: on the two-point equator track the placer emits
exactly one marker, while `⌊L / 3⌋ = ⌊6371 * π / 3⌋ ≥ 4`, so the emitted
count is not within ±1 of `⌊L / 3⌋`. -/
theorem C1_counterexample :
    (directionArrowsOfTrack equatorTrack).length = 1
    ∧ ¬ (|((directionArrowsOfTrack equatorTrack).length : ℤ)
          - ⌊totalLength equatorTrack / 3⌋| ≤ 1) := by
  have hlen : (directionArrowsOfTrack equatorTrack).length = 1 := by
    rw [equator_arrows]
    rfl
  have hfl : (4:ℤ) ≤ ⌊totalLength equatorTrack / 3⌋ := by
    rw [equator_total]
    apply Int.le_floor.mpr
    push_cast
    rw [le_div_iff₀ (by norm_num : (0:ℝ) < 3)]
    nlinarith [Real.pi_gt_three]
  refine ⟨hlen, ?_⟩
  rw [hlen]
  intro habs
  rw [abs_le] at habs
  push_cast at habs
  omega

/-- Witness for C1_amended: the per-marker membership hypothesis discharged at
the concrete equator track and its emitted marker. -/
theorem C1_amended_witness : ∃ i : ℕ, ∃ p q : GPXPoint,
    equatorTrack[i]? = some p ∧ equatorTrack[i+1]? = some q
    ∧ equatorMarker.lat = p.lat ∧ equatorMarker.lon = p.lon
    ∧ equatorMarker.bearingDegrees = calculateBearing p q
    ∧ equatorMarker.cumulativeDistanceKm = accDist equatorTrack (i+1) :=
  (C1_amended equatorTrack).2.2.2.2 equatorMarker
    (by rw [equator_arrows]; exact List.mem_singleton_self _)

/- ### helper lemmas about waypoints and bounds -/

lemma truthyString_iff (o : Option String) : truthyString o = true ↔ presentNonempty o := by
  cases o with
  | none => simp [truthyString, presentNonempty]
  | some s => simp [truthyString, presentNonempty, bne_iff_ne]

lemma foldl_append_singleton : ∀ (ws : List GPXWaypoint) (acc : List WaypointMarker),
    ws.foldl (fun a w => a ++ [mkWaypointMarker w]) acc = acc ++ ws.map mkWaypointMarker := by
  intro ws
  induction ws with
  | nil => intro acc; simp
  | cons w tail ih =>
    intro acc
    rw [List.foldl_cons, ih]
    simp

/-- Claim C6 (corrected): every waypoint gets exactly one marker at its
position (the emitted list is the pointwise image of the waypoint list); a
popup is associated exactly when the name is present and nonempty, the
description is present and nonempty, or the elevation is present — JavaScript
truthiness makes an empty-string name or description count as absent, which
refutes the claim's plain "present" (see `C6_counterexample`); the popup
carries the name as heading when truthy, the description as body when truthy,
and the elevation (rendered suffixed "m") when present. -/
theorem C6_amended :
    (∀ ws : List GPXWaypoint, renderWaypoints ws = ws.map mkWaypointMarker)
    ∧ ∀ w : GPXWaypoint,
        (mkWaypointMarker w).lat = w.lat ∧ (mkWaypointMarker w).lon = w.lon
        ∧ (mkWaypointMarker w).title = w.name
        ∧ ((mkWaypointMarker w).popup ≠ none ↔
            presentNonempty w.name ∨ presentNonempty w.desc ∨ w.ele ≠ none)
        ∧ ∀ pc : PopupContent, (mkWaypointMarker w).popup = some pc →
            pc.heading = (if truthyString w.name then w.name else none)
            ∧ pc.body = (if truthyString w.desc then w.desc else none)
            ∧ pc.elevationMeters = w.ele := by
  constructor
  · intro ws
    unfold renderWaypoints
    rw [foldl_append_singleton]
    simp
  · intro w
    refine ⟨rfl, rfl, rfl, ?_, ?_⟩
    · unfold mkWaypointMarker
      by_cases h : (truthyString w.name || truthyString w.desc || w.ele.isSome) = true
      · rw [if_pos h]
        simp only [Bool.or_eq_true, truthyString_iff, Option.isSome_iff_ne_none] at h
        exact ⟨fun _ => or_assoc.mp h, fun _ => Option.some_ne_none _⟩
      · rw [if_neg h]
        simp only [Bool.or_eq_true, truthyString_iff, Option.isSome_iff_ne_none] at h
        rw [or_assoc] at h
        push_neg at h
        simp [h.1, h.2.1, h.2.2]
    · intro pc hpc
      unfold mkWaypointMarker at hpc
      by_cases h : (truthyString w.name || truthyString w.desc || w.ele.isSome) = true
      · rw [if_pos h] at hpc
        simp only [Option.some.injEq] at hpc
        rw [← hpc]
        exact ⟨rfl, rfl, rfl⟩
      · rw [if_neg h] at hpc
        exact Option.noConfusion hpc

/-- Claim C6 counterexample: a waypoint whose name is present but empty
(`some ""`) gets a bare marker with no popup, though the claim requires a
popup whenever any of the three fields is present. -/
theorem C6_counterexample :
    (renderWaypoints [⟨0, 0, some "", none, none⟩]).map WaypointMarker.popup = [none]
    ∧ (GPXWaypoint.mk 0 0 (some "") none none).name ≠ none := by
  exact ⟨rfl, by simp⟩

/-- Witness for C6_amended: the popup hypotheses discharged at a waypoint
with all three fields populated. -/
theorem C6_amended_witness :
    (mkWaypointMarker summitWaypoint).popup ≠ none
    ∧ summitPopup.heading = (if truthyString summitWaypoint.name then summitWaypoint.name else none)
    ∧ summitPopup.body = (if truthyString summitWaypoint.desc then summitWaypoint.desc else none)
    ∧ summitPopup.elevationMeters = summitWaypoint.ele := by
  have h := C6_amended.2 summitWaypoint
  exact ⟨h.2.2.2.1.mpr (Or.inl (show ("Summit" : String) ≠ "" by decide)),
    h.2.2.2.2 summitPopup rfl⟩

lemma boundsContain_extend_self (b : Option LatLngBounds) (la lo : ℝ) :
    boundsContain (extendBounds b la lo) la lo := by
  cases b with
  | none => exact ⟨⟨la, la, lo, lo⟩, rfl, le_rfl, le_rfl, le_rfl, le_rfl⟩
  | some r =>
    exact ⟨_, rfl, min_le_right _ _, le_max_right _ _, min_le_right _ _, le_max_right _ _⟩

lemma boundsContain_extend_mono {b : Option LatLngBounds} {la lo : ℝ} (la2 lo2 : ℝ)
    (h : boundsContain b la lo) : boundsContain (extendBounds b la2 lo2) la lo := by
  obtain ⟨r, hr, h1, h2, h3, h4⟩ := h
  subst hr
  exact ⟨_, rfl, le_trans (min_le_left _ _) h1, le_trans h2 (le_max_left _ _),
    le_trans (min_le_left _ _) h3, le_trans h4 (le_max_left _ _)⟩

lemma boundsContain_foldl_mono {α : Type} (f1 f2 : α → ℝ) (xs : List α) :
    ∀ (b : Option LatLngBounds) (la lo : ℝ), boundsContain b la lo →
      boundsContain (xs.foldl (fun b a => extendBounds b (f1 a) (f2 a)) b) la lo := by
  induction xs with
  | nil => intro b la lo h; exact h
  | cons x tail ih =>
    intro b la lo h
    rw [List.foldl_cons]
    exact ih _ _ _ (boundsContain_extend_mono _ _ h)

lemma boundsContain_foldl_mem {α : Type} (f1 f2 : α → ℝ) (xs : List α) :
    ∀ (b : Option LatLngBounds) (a : α), a ∈ xs →
      boundsContain (xs.foldl (fun b a => extendBounds b (f1 a) (f2 a)) b) (f1 a) (f2 a) := by
  induction xs with
  | nil => intro b a ha; simp at ha
  | cons x tail ih =>
    intro b a ha
    rw [List.foldl_cons]
    rcases List.mem_cons.mp ha with h | h
    · subst h
      exact boundsContain_foldl_mono f1 f2 tail _ _ _ (boundsContain_extend_self b _ _)
    · exact ih _ a h

/-- Claim C4 (corrected): the source issues the viewport-fit request
unconditionally — there is no empty-set skip (refuted concretely by
`C4_counterexample`). For every parsed document exactly one fit request is
issued, carrying the bounds folded over all track points and then all
waypoints; on an empty combined point set that region is the never-extended
empty bounds object, and the region contains every track point and every
waypoint. -/
theorem C4_amended : ∀ (st : MapState) (tracks : List GPXTrack) (waypoints : List GPXWaypoint),
    (handleFile st true (LoadEvent.parsed tracks waypoints)).2.1
        = some (fitMapBounds (allPointsOf tracks) waypoints)
    ∧ fitMapBounds [] [] = none
    ∧ (∀ p ∈ allPointsOf tracks,
        boundsContain (fitMapBounds (allPointsOf tracks) waypoints) p.lat p.lon)
    ∧ ∀ w ∈ waypoints,
        boundsContain (fitMapBounds (allPointsOf tracks) waypoints) w.lat w.lon := by
  intro st tracks waypoints
  refine ⟨rfl, rfl, ?_, ?_⟩
  · intro p hp
    unfold fitMapBounds
    exact boundsContain_foldl_mono (fun w : GPXWaypoint => w.lat) (fun w => w.lon) waypoints _ _ _
      (boundsContain_foldl_mem (fun p : GPXPoint => p.lat) (fun p => p.lon)
        (allPointsOf tracks) none p hp)
  · intro w hw
    unfold fitMapBounds
    exact boundsContain_foldl_mem (fun w : GPXWaypoint => w.lat) (fun w => w.lon)
      waypoints _ w hw

/-- Claim C4 counterexample: on a document with zero tracks and zero
waypoints a fit request is still issued (carrying the empty bounds object),
though the claim requires the step to be skipped entirely. -/
theorem C4_counterexample :
    (handleFile ⟨[], []⟩ true (LoadEvent.parsed [] [])).2.1 = some none
    ∧ some (none : Option LatLngBounds) ≠ none := by
  exact ⟨rfl, by simp⟩

/-- Witness for C4_amended: the containment hypothesis discharged at a
one-point document. -/
theorem C4_amended_witness :
    boundsContain (fitMapBounds (allPointsOf [⟨[⟨35, 129, none⟩]⟩]) []) 35 129 :=
  (C4_amended ⟨[], []⟩ [⟨[⟨35, 129, none⟩]⟩] []).2.2.1 ⟨35, 129, none⟩ (by simp [allPointsOf])

/-- Claim C7 (confirmed): a document with zero tracks and one waypoint
renders exactly one marker (the waypoint's), zero colored segments and zero
direction markers, and fits the viewport to the zero-area region at the
waypoint's coordinate; the elevation range of the empty point set causes no
failure (the handler is total and never consults it, as no segment is
drawn). -/
theorem C7_single_waypoint : ∀ (st : MapState) (w : GPXWaypoint),
    (handleFile st true (LoadEvent.parsed [] [w])).1.polylines = []
    ∧ (handleFile st true (LoadEvent.parsed [] [w])).1.markers
        = [MapOverlayMarker.waypoint (mkWaypointMarker w)]
    ∧ (handleFile st true (LoadEvent.parsed [] [w])).2.1
        = some (some ⟨w.lat, w.lat, w.lon, w.lon⟩)
    ∧ (handleFile st true (LoadEvent.parsed [] [w])).2.2 = [] := by
  intro st w
  exact ⟨rfl, rfl, rfl, rfl⟩

/-- Claim C8 (confirmed): when the file read or the parse fails, the render
for that load is aborted atomically: the overlay collections hold exactly
what the load-start clear left (nothing), no fit request is issued, the
failure is reported to the console-error log, and the handler — a total
function — returns normally rather than crashing. -/
theorem C8_failure_aborts : ∀ (st : MapState) (msg : String),
    (handleFile st true (LoadEvent.failure msg)).1 = ⟨[], []⟩
    ∧ (handleFile st true (LoadEvent.failure msg)).2.1 = none
    ∧ (handleFile st true (LoadEvent.failure msg)).2.2 = ["Error parsing GPX file: " ++ msg] := by
  intro st msg
  exact ⟨rfl, rfl, rfl⟩

/-- Claim C9 (confirmed): after any render, clearing overlays and then
rendering a document with zero tracks and zero waypoints leaves the
overlay-tracking collections with zero tracked overlays. -/
theorem C9_clear_then_empty_render : ∀ st : MapState,
    (handleFile (clearMapOverlays st) true (LoadEvent.parsed [] [])).1 = ⟨[], []⟩ := by
  intro st
  rfl

/-- Claim C10 (confirmed): invoked with an empty file selection, the handler
still clears all prior overlays — the clear precedes the empty-selection
check — and emits nothing new: the resulting overlay set is empty, with no
fit request and no log output. -/
theorem C10_no_file_clears : ∀ st : MapState,
    handleFile st true LoadEvent.noFile = (⟨[], []⟩, none, []) := by
  intro st
  rfl
